import Mathlib

/-
  Verification of the stereo block-matching core of the MLGV repository
  (src/handcrafted_stereo.py): the zero-padding routine add_padding, the
  scanline matcher match_on_scanline, and the disparity engine sad.

  Shallow embedding conventions.  A numpy array of known rank is a structure
  holding its shape, its element dtype tag and a total indexing function.
  Pixel values are exact integers: the program only forms absolute
  differences and sums of input intensities, which float32 evaluates exactly
  on the integral intensity data the program consumes, so the float32
  conversions in the source are modelled as pure dtype-tag changes.
  Fallible numpy operations (broadcast errors on slice assignment,
  out-of-bounds integer indexing) are modelled with Option: none models a
  raised exception.  Numpy slice reads clamp instead of failing; in every
  call the engine makes, the slices are fully in range, and window reads are
  modelled as plain function reads.
-/

inductive DType where
  | float32
  | float64
  | uint8
  | int32
deriving DecidableEq

structure Image2D where
  H : Nat
  W : Nat
  dtype : DType
  data : Nat → Nat → Int

structure Image3D where
  H : Nat
  W : Nat
  C : Nat
  dtype : DType
  data : Nat → Nat → Nat → Int

inductive NpImage where
  | twoD (I : Image2D)
  | threeD (I : Image3D)

/-- The dtype attribute of a numpy image of either rank. -/
def NpImage.dtypeOf : NpImage → DType
  | .twoD I => I.dtype
  | .threeD I => I.dtype

/-- The trailing channel dimension: none for a 2-D image, the channel count
for a 3-D image. -/
def NpImage.channels : NpImage → Option Nat
  | .twoD _ => none
  | .threeD I => some I.C

/-- The buffer built by the 2-D branch of add_padding when padding ≥ 1:
np.zeros of shape (H+2p, W+2p) with dtype float32, then
padded[p:-p, p:-p] = I copies the source into the centered region. -/
def paddedGrid2 (I : Image2D) (p : Nat) : Image2D :=
  { H := I.H + 2 * p
    W := I.W + 2 * p
    dtype := DType.float32
    data := fun i j =>
      if p ≤ i ∧ i < I.H + p ∧ p ≤ j ∧ j < I.W + p then I.data (i - p) (j - p) else 0 }

/-- The buffer built by the 3-D branch of add_padding when padding ≥ 1:
np.zeros of shape (H+2p, W+2p, C) with the dtype of the source. -/
def paddedGrid3 (I : Image3D) (p : Nat) : Image3D :=
  { H := I.H + 2 * p
    W := I.W + 2 * p
    C := I.C
    dtype := I.dtype
    data := fun i j c =>
      if p ≤ i ∧ i < I.H + p ∧ p ≤ j ∧ j < I.W + p then I.data (i - p) (j - p) c else 0 }

/-- The 2-D branch of add_padding (the case len(I.shape) == 2).
When padding = 0 the assignment target padded[0:-0, 0:-0] is the empty slice
padded[0:0, 0:0]: numpy broadcasts the (H, W) source into the (0, 0) target
only when H ≤ 1 and W ≤ 1 (a size-1 axis broadcasts to size 0, a larger axis
raises ValueError), and then assigns no element, leaving the all-zero
buffer. -/
def add_padding_2d (I : Image2D) (padding : Nat) : Option Image2D :=
  if padding = 0 then
    if I.H ≤ 1 ∧ I.W ≤ 1 then
      some { H := I.H, W := I.W, dtype := DType.float32, data := fun _ _ => 0 }
    else none
  else some (paddedGrid2 I padding)

/-- The 3-D branch of add_padding, with the same empty-slice behaviour at
padding = 0 (the trailing channel axis matches itself exactly). -/
def add_padding_3d (I : Image3D) (padding : Nat) : Option Image3D :=
  if padding = 0 then
    if I.H ≤ 1 ∧ I.W ≤ 1 then
      some { H := I.H, W := I.W, C := I.C, dtype := I.dtype, data := fun _ _ _ => 0 }
    else none
  else some (paddedGrid3 I padding)

/-- add_padding branches on the rank of its argument
(if len(I.shape) == 2 ... else ...). -/
def add_padding : NpImage → Nat → Option NpImage
  | .twoD I, padding => (add_padding_2d I padding).map NpImage.twoD
  | .threeD I, padding => (add_padding_3d I padding).map NpImage.threeD

/-- sumRange f n is the sum of f 0, ..., f (n-1): the summation carried out
by np.sum over one axis of a window. -/
def sumRange (f : Nat → Int) : Nat → Int
  | 0 => 0
  | n + 1 => sumRange f n + f n

/-- np.sum(np.abs(left_patch - image_right[y:y+w, disp_x:disp_x+w])): the sum
of absolute differences between the left patch and the right-image window
anchored at (disp_x, y). -/
def sadScore (left_patch : Nat → Nat → Int) (image_right : Image2D)
    (disp_x y window_size : Nat) : Int :=
  sumRange
    (fun i =>
      sumRange (fun j => |left_patch i j - image_right.data (y + i) (disp_x + j)|)
        window_size)
    window_size

/-- The loop of match_on_scanline over the remaining candidate disparities,
carrying the running state (minimal_sad, minimal_sad_d).  A candidate d with
x < d models disp_x = x - d < 0 and breaks out of the loop (the candidate
lists used are ascending, so returning the current state is the break). -/
def matchLoop (left_patch : Nat → Nat → Int) (image_right : Image2D)
    (x y window_size : Nat) : List Nat → Int → Nat → Nat
  | [], _, minimal_sad_d => minimal_sad_d
  | d :: ds, minimal_sad, minimal_sad_d =>
    if x < d then minimal_sad_d
    else
      if sadScore left_patch image_right (x - d) y window_size < minimal_sad then
        matchLoop left_patch image_right x y window_size ds
          (sadScore left_patch image_right (x - d) y window_size) d
      else matchLoop left_patch image_right x y window_size ds minimal_sad minimal_sad_d

/-- match_on_scanline: iterate d over range(max_disparity) with the running
minimum seeded by the sentinel max_disparity + 1 and the recorded disparity
seeded by 0. -/
def match_on_scanline (left_patch : Nat → Nat → Int) (image_right : Image2D)
    (x y max_disparity window_size : Nat) : Nat :=
  matchLoop left_patch image_right x y window_size (List.range max_disparity)
    ((max_disparity : Int) + 1) 0

/-- The disparity map: np.zeros_like(image_left) receives the original shape
and dtype of the left image; its cells hold the stored disparities. -/
structure DMap where
  H : Nat
  W : Nat
  dtype : DType
  data : Nat → Nat → Nat

/-- The python loop bound range(n - window_size + 1) on an axis of padded
extent n, with the signed arithmetic of python int (an empty range when the
bound is not positive). -/
def iterBound (n window_size : Nat) : Nat :=
  ((n : Int) - window_size + 1).toNat

/-- The .astype(np.float32) conversion: a dtype-tag change, exact on the
values the program feeds it. -/
def astypeFloat32 (I : Image2D) : Image2D :=
  { I with dtype := DType.float32 }

/-- The double loop of sad over the padded images PL and PR.  D =
np.zeros_like(image_left) has the original H x W shape; y runs over
range(height - window_size + 1) and x over range(width - window_size + 1)
on the padded extents (height and width are read off the padded left image)
and D[y, x] = match_on_scanline(...) is stored.  A store with y ≥ H or
x ≥ W raises IndexError, modelled as none; it happens exactly when both
loop ranges are nonempty and one bound exceeds the corresponding original
extent. -/
def sadLoops (image_left PL PR : Image2D) (window_size max_disparity : Nat) :
    Option DMap :=
  let yB := iterBound PL.H window_size
  let xB := iterBound PL.W window_size
  if 0 < yB ∧ 0 < xB ∧ (image_left.H < yB ∨ image_left.W < xB) then none
  else
    some
      { H := image_left.H
        W := image_left.W
        dtype := image_left.dtype
        data := fun y x =>
          if y < yB ∧ x < xB then
            match_on_scanline (fun i j => PL.data (y + i) (x + j)) PR x y
              max_disparity window_size
          else 0 }

/-- The disparity engine sad: pad both images by window_size // 2,
convert them to float32, then run the double scan loops; a raised
exception in either padding call propagates. -/
def sad (image_left image_right : Image2D)
    (window_size max_disparity : Nat) : Option DMap :=
  (add_padding_2d image_left (window_size / 2)).bind fun PL0 =>
    (add_padding_2d image_right (window_size / 2)).bind fun PR0 =>
      sadLoops image_left (astypeFloat32 PL0) (astypeFloat32 PR0)
        window_size max_disparity

theorem sumRange_nonneg (f : Nat → Int) (n : Nat) (h : ∀ i, i < n → 0 ≤ f i) :
    0 ≤ sumRange f n := by
  induction n with
  | zero => simp [sumRange]
  | succ m ih =>
    have h1 : 0 ≤ sumRange f m := ih (fun i hi => h i (Nat.lt_succ_of_lt hi))
    have h2 : 0 ≤ f m := h m (Nat.lt_succ_self m)
    simpa [sumRange] using add_nonneg h1 h2

theorem sumRange_eq_zero (f : Nat → Int) (n : Nat) (h : ∀ i, i < n → f i = 0) :
    sumRange f n = 0 := by
  induction n with
  | zero => simp [sumRange]
  | succ m ih =>
    simp [sumRange, ih (fun i hi => h i (Nat.lt_succ_of_lt hi)), h m (Nat.lt_succ_self m)]

theorem le_sumRange (f : Nat → Int) (n i0 : Nat) (hi0 : i0 < n)
    (h : ∀ i, i < n → 0 ≤ f i) : f i0 ≤ sumRange f n := by
  induction n with
  | zero => exact absurd hi0 (Nat.not_lt_zero i0)
  | succ m ih =>
    rcases Nat.lt_succ_iff_lt_or_eq.mp hi0 with hlt | heq
    · have h1 : f i0 ≤ sumRange f m := ih hlt (fun i hi => h i (Nat.lt_succ_of_lt hi))
      have h2 : 0 ≤ f m := h m (Nat.lt_succ_self m)
      simp only [sumRange]
      omega
    · have h1 : 0 ≤ sumRange f m :=
        sumRange_nonneg f m (fun i hi => h i (Nat.lt_succ_of_lt hi))
      have h2 : f i0 = f m := by rw [heq]
      simp only [sumRange]
      omega

theorem sadScore_nonneg (left_patch : Nat → Nat → Int) (image_right : Image2D)
    (disp_x y window_size : Nat) :
    0 ≤ sadScore left_patch image_right disp_x y window_size := by
  refine sumRange_nonneg _ _ (fun i _ => ?_)
  exact sumRange_nonneg _ _ (fun j _ => abs_nonneg _)

theorem sadScore_eq_zero (left_patch : Nat → Nat → Int) (image_right : Image2D)
    (disp_x y window_size : Nat)
    (h : ∀ i, i < window_size → ∀ j, j < window_size →
      left_patch i j = image_right.data (y + i) (disp_x + j)) :
    sadScore left_patch image_right disp_x y window_size = 0 := by
  refine sumRange_eq_zero _ _ (fun i hi => ?_)
  refine sumRange_eq_zero _ _ (fun j hj => ?_)
  simp [h i hi j hj]

theorem sadScore_pos (left_patch : Nat → Nat → Int) (image_right : Image2D)
    (disp_x y window_size : Nat) (hw : 0 < window_size)
    (hne : left_patch 0 0 ≠ image_right.data (y + 0) (disp_x + 0)) :
    0 < sadScore left_patch image_right disp_x y window_size := by
  have hterm : 0 < |left_patch 0 0 - image_right.data (y + 0) (disp_x + 0)| :=
    abs_pos.mpr (sub_ne_zero.mpr hne)
  have hinner : |left_patch 0 0 - image_right.data (y + 0) (disp_x + 0)| ≤
      sumRange (fun j => |left_patch 0 j - image_right.data (y + 0) (disp_x + j)|)
        window_size :=
    le_sumRange _ _ 0 hw (fun j _ => abs_nonneg _)
  have houter : sumRange (fun j => |left_patch 0 j - image_right.data (y + 0) (disp_x + j)|)
      window_size ≤ sadScore left_patch image_right disp_x y window_size :=
    le_sumRange _ _ 0 hw (fun i _ => sumRange_nonneg _ _ (fun j _ => abs_nonneg _))
  omega

theorem matchLoop_lt (left_patch : Nat → Nat → Int) (image_right : Image2D)
    (x y window_size max_disparity : Nat) :
    ∀ (l : List Nat) (ms : Int) (m0 : Nat),
      (∀ d ∈ l, d < max_disparity) → m0 < max_disparity →
      matchLoop left_patch image_right x y window_size l ms m0 < max_disparity := by
  intro l
  induction l with
  | nil => intro ms m0 _ hm0; simpa [matchLoop] using hm0
  | cons d ds ih =>
    intro ms m0 hl hm0
    simp only [matchLoop]
    split
    · exact hm0
    · split
      · exact ih _ _ (fun e he => hl e (List.mem_cons_of_mem _ he))
          (hl d (List.mem_cons_self _ _))
      · exact ih _ _ (fun e he => hl e (List.mem_cons_of_mem _ he)) hm0

theorem matchLoop_hold (left_patch : Nat → Nat → Int) (image_right : Image2D)
    (x y window_size : Nat) :
    ∀ (l : List Nat) (ms : Int) (m0 : Nat),
      (∀ d ∈ l, d ≤ x →
        ¬ sadScore left_patch image_right (x - d) y window_size < ms) →
      matchLoop left_patch image_right x y window_size l ms m0 = m0 := by
  intro l
  induction l with
  | nil => intro ms m0 _; rfl
  | cons d ds ih =>
    intro ms m0 hl
    simp only [matchLoop]
    split
    · rfl
    · rename_i hxd
      rw [if_neg (hl d (List.mem_cons_self _ _) (Nat.le_of_not_lt hxd))]
      exact ih _ _ (fun e he hex => hl e (List.mem_cons_of_mem _ he) hex)

theorem matchLoop_argmin (left_patch : Nat → Nat → Int) (image_right : Image2D)
    (x y window_size : Nat) :
    ∀ (l : List Nat) (ms : Int) (m0 k : Nat),
      l.Sorted (· < ·) → k ∈ l → k ≤ x →
      sadScore left_patch image_right (x - k) y window_size < ms →
      (∀ d ∈ l, d ≤ x →
        sadScore left_patch image_right (x - k) y window_size ≤
          sadScore left_patch image_right (x - d) y window_size) →
      (∀ d ∈ l, d < k →
        sadScore left_patch image_right (x - k) y window_size <
          sadScore left_patch image_right (x - d) y window_size) →
      matchLoop left_patch image_right x y window_size l ms m0 = k := by
  intro l
  induction l with
  | nil => intro ms m0 k _ hk; exact absurd hk (List.not_mem_nil k)
  | cons d ds ih =>
    intro ms m0 k hsort hk hkx hms hmin hstrict
    have hsort2 := List.sorted_cons.mp hsort
    have hdx : d ≤ x := by
      rcases List.mem_cons.mp hk with heq | hmem
      · omega
      · exact Nat.le_of_lt (Nat.lt_of_lt_of_le (hsort2.1 k hmem) hkx)
    simp only [matchLoop, if_neg (Nat.not_lt.mpr hdx)]
    rcases List.mem_cons.mp hk with heq | hmem
    · subst heq
      rw [if_pos hms]
      exact matchLoop_hold left_patch image_right x y window_size ds _ _
        (fun e he hex =>
          Int.not_lt.mpr (hmin e (List.mem_cons_of_mem _ he) hex))
    · have hdk : d < k := hsort2.1 k hmem
      have hskd : sadScore left_patch image_right (x - k) y window_size <
          sadScore left_patch image_right (x - d) y window_size :=
        hstrict d (List.mem_cons_self _ _) hdk
      split
      · exact ih _ _ _ hsort2.2 hmem hkx hskd
          (fun e he hex => hmin e (List.mem_cons_of_mem _ he) hex)
          (fun e he hek => hstrict e (List.mem_cons_of_mem _ he) hek)
      · exact ih _ _ _ hsort2.2 hmem hkx hms
          (fun e he hex => hmin e (List.mem_cons_of_mem _ he) hex)
          (fun e he hek => hstrict e (List.mem_cons_of_mem _ he) hek)

theorem match_on_scanline_argmin (left_patch : Nat → Nat → Int) (image_right : Image2D)
    (x y max_disparity window_size k : Nat)
    (hkx : k ≤ x) (hkmd : k < max_disparity)
    (hsent : sadScore left_patch image_right (x - k) y window_size ≤ max_disparity)
    (hmin : ∀ d, d < max_disparity → d ≤ x →
      sadScore left_patch image_right (x - k) y window_size ≤
        sadScore left_patch image_right (x - d) y window_size)
    (hstrict : ∀ d, d < k →
      sadScore left_patch image_right (x - k) y window_size <
        sadScore left_patch image_right (x - d) y window_size) :
    match_on_scanline left_patch image_right x y max_disparity window_size = k := by
  unfold match_on_scanline
  refine matchLoop_argmin left_patch image_right x y window_size _ _ _ _
    (List.sorted_lt_range max_disparity) (List.mem_range.mpr hkmd) hkx ?_ ?_ ?_
  · omega
  · exact fun d hd hdx => hmin d (List.mem_range.mp hd) hdx
  · exact fun d _ hdk => hstrict d hdk

theorem match_on_scanline_zero (left_patch : Nat → Nat → Int) (image_right : Image2D)
    (x y max_disparity window_size : Nat)
    (h0 : sadScore left_patch image_right x y window_size = 0) :
    match_on_scanline left_patch image_right x y max_disparity window_size = 0 := by
  cases max_disparity with
  | zero => rfl
  | succ m =>
    refine match_on_scanline_argmin left_patch image_right x y (m + 1) window_size 0
      (Nat.zero_le x) (Nat.succ_pos m) ?_ ?_ ?_
    · rw [Nat.sub_zero, h0]; exact Int.ofNat_nonneg (m + 1)
    · intro d _ _
      rw [Nat.sub_zero, h0]
      exact sadScore_nonneg left_patch image_right (x - d) y window_size
    · intro d hd
      exact absurd hd (Nat.not_lt_zero d)

theorem astypeFloat32_paddedGrid2 (I : Image2D) (p : Nat) :
    astypeFloat32 (paddedGrid2 I p) = paddedGrid2 I p := rfl

theorem add_padding_2d_pos (I : Image2D) (p : Nat) (hp : p ≠ 0) :
    add_padding_2d I p = some (paddedGrid2 I p) := by
  simp [add_padding_2d, hp]

theorem sadLoops_shape (L PL PR : Image2D) (window_size max_disparity : Nat)
    (D : DMap) (h : sadLoops L PL PR window_size max_disparity = some D) :
    D.H = L.H ∧ D.W = L.W := by
  simp only [sadLoops] at h
  split at h
  · cases h
  · cases h
    exact ⟨rfl, rfl⟩

theorem sad_odd_eq (L R : Image2D) (window_size max_disparity : Nat)
    (hodd : window_size % 2 = 1) (h3 : 3 ≤ window_size) :
    sad L R window_size max_disparity =
      some { H := L.H, W := L.W, dtype := L.dtype,
             data := fun y x =>
               if y < L.H ∧ x < L.W then
                 match_on_scanline
                   (fun i j => (paddedGrid2 L (window_size / 2)).data (y + i) (x + j))
                   (paddedGrid2 R (window_size / 2)) x y max_disparity window_size
               else 0 } := by
  have hp : window_size / 2 ≠ 0 := by omega
  have hH : iterBound ((paddedGrid2 L (window_size / 2)).H) window_size = L.H := by
    simp only [paddedGrid2, iterBound]
    omega
  have hW : iterBound ((paddedGrid2 L (window_size / 2)).W) window_size = L.W := by
    simp only [paddedGrid2, iterBound]
    omega
  rw [sad, add_padding_2d_pos L _ hp, add_padding_2d_pos R _ hp, Option.some_bind,
    Option.some_bind, astypeFloat32_paddedGrid2, astypeFloat32_paddedGrid2, sadLoops]
  simp only [hH, hW]
  simp

theorem sad_shape (L R : Image2D) (window_size max_disparity : Nat)
    (h : (sad L R window_size max_disparity).isSome = true) :
    (sad L R window_size max_disparity).map (fun D => (D.H, D.W)) =
      some (L.H, L.W) := by
  rcases hs : sad L R window_size max_disparity with _ | D
  · rw [hs] at h
    cases h
  · unfold sad at hs
    rcases hL : add_padding_2d L (window_size / 2) with _ | PL0 <;> rw [hL] at hs
    · cases hs
    · rw [Option.some_bind] at hs
      rcases hR : add_padding_2d R (window_size / 2) with _ | PR0 <;> rw [hR] at hs
      · cases hs
      · rw [Option.some_bind] at hs
        have hdim := sadLoops_shape L _ _ window_size max_disparity D hs
        simp [Option.map, hdim.1, hdim.2]

theorem match_on_scanline_lt (left_patch : Nat → Nat → Int) (image_right : Image2D)
    (x y max_disparity window_size : Nat) (hmd : 0 < max_disparity) :
    match_on_scanline left_patch image_right x y max_disparity window_size <
      max_disparity := by
  unfold match_on_scanline
  exact matchLoop_lt left_patch image_right x y window_size max_disparity
    (List.range max_disparity) _ 0 (fun d hd => List.mem_range.mp hd) hmd

theorem sadLoops_self_zero (L P : Image2D) (window_size max_disparity : Nat) (D : DMap)
    (h : sadLoops L P P window_size max_disparity = some D) :
    ∀ y x, D.data y x = 0 := by
  simp only [sadLoops] at h
  split at h
  · cases h
  · cases h
    intro y x
    dsimp only
    split
    · exact match_on_scanline_zero _ _ _ _ _ _
        (sadScore_eq_zero _ _ _ _ _ (fun i _ j _ => rfl))
    · rfl

theorem sad_self_zero (L : Image2D) (window_size max_disparity : Nat) (D : DMap)
    (h : sad L L window_size max_disparity = some D) : ∀ y x, D.data y x = 0 := by
  unfold sad at h
  rcases hL : add_padding_2d L (window_size / 2) with _ | P0
  · rw [hL] at h
    cases h
  · rw [hL, Option.some_bind, Option.some_bind] at h
    exact sadLoops_self_zero L (astypeFloat32 P0) window_size max_disparity D h

/-- C1 counterexample: at the concrete call below (window_size 1,
max_disparity 2, x = 1, y = 0, a constant 10 left patch and a padded right
image whose row reads 5, 0), every candidate SAD exceeds the sentinel
max_disparity + 1 = 3, so the matcher returns the seed disparity 0 even
though the candidate d = 1 has a strictly smaller SAD than d = 0: the
returned value does not minimize the SAD, refuting the claim as stated. -/
theorem c1_sentinel_counterexample :
    match_on_scanline (fun _ _ => 10)
        { H := 1, W := 2, dtype := DType.float32,
          data := fun _ j => if j = 0 then 5 else 0 } 1 0 2 1 = 0 ∧
      sadScore (fun _ _ => 10)
        { H := 1, W := 2, dtype := DType.float32,
          data := fun _ j => if j = 0 then 5 else 0 } (1 - 1) 0 1 <
        sadScore (fun _ _ => 10)
          { H := 1, W := 2, dtype := DType.float32,
            data := fun _ j => if j = 0 then 5 else 0 } (1 - 0) 0 1 := by
  decide

/-- C1 (amended): for a call with padded coordinates x ≥ 0, if k is a
candidate disparity (k ≤ x, k < max_disparity) whose SAD is at most
max_disparity (so it beats the sentinel seed max_disparity + 1), is minimal
among all candidate SADs, and is strictly below the SAD of every smaller
candidate, then the scanline matcher returns exactly k. -/
theorem c1_scanline_argmin (left_patch : Nat → Nat → Int) (image_right : Image2D)
    (x y max_disparity window_size k : Nat)
    (hkx : k ≤ x) (hkmd : k < max_disparity)
    (hsent : sadScore left_patch image_right (x - k) y window_size ≤ max_disparity)
    (hmin : ∀ d, d < max_disparity → d ≤ x →
      sadScore left_patch image_right (x - k) y window_size ≤
        sadScore left_patch image_right (x - d) y window_size)
    (hstrict : ∀ d, d < k →
      sadScore left_patch image_right (x - k) y window_size <
        sadScore left_patch image_right (x - d) y window_size) :
    match_on_scanline left_patch image_right x y max_disparity window_size = k :=
  match_on_scanline_argmin left_patch image_right x y max_disparity window_size k
    hkx hkmd hsent hmin hstrict

/-- C1 witness: a concrete call (constant 3 left patch, right row 3, 9;
x = 1, max_disparity 2, window_size 1) where the candidate k = 1 has SAD 0,
satisfying every hypothesis, and the matcher indeed returns 1. -/
theorem c1_scanline_argmin_witness :
    (1 ≤ 1 ∧ 1 < 2 ∧
      sadScore (fun _ _ => 3)
        { H := 1, W := 2, dtype := DType.float32,
          data := fun _ j => if j = 0 then 3 else 9 } (1 - 1) 0 1 ≤ 2 ∧
      (∀ d, d < 2 → d ≤ 1 →
        sadScore (fun _ _ => 3)
          { H := 1, W := 2, dtype := DType.float32,
            data := fun _ j => if j = 0 then 3 else 9 } (1 - 1) 0 1 ≤
          sadScore (fun _ _ => 3)
            { H := 1, W := 2, dtype := DType.float32,
              data := fun _ j => if j = 0 then 3 else 9 } (1 - d) 0 1) ∧
      (∀ d, d < 1 →
        sadScore (fun _ _ => 3)
          { H := 1, W := 2, dtype := DType.float32,
            data := fun _ j => if j = 0 then 3 else 9 } (1 - 1) 0 1 <
          sadScore (fun _ _ => 3)
            { H := 1, W := 2, dtype := DType.float32,
              data := fun _ j => if j = 0 then 3 else 9 } (1 - d) 0 1)) ∧
    match_on_scanline (fun _ _ => 3)
      { H := 1, W := 2, dtype := DType.float32,
        data := fun _ j => if j = 0 then 3 else 9 } 1 0 2 1 = 1 :=
  ⟨⟨by decide, by decide, by decide, by decide, by decide⟩,
    c1_scanline_argmin _ _ 1 0 2 1 1 (by decide) (by decide) (by decide) (by decide)
      (by decide)⟩

/-- C3 counterexample: on a 2 x 2 image pair, window_size 2 (even) makes the
iteration bound height - window_size + 1 = H + 1 exceed the output height,
so the store D[H, x] raises IndexError; window_size 1 (padding 0) makes
add_padding raise a broadcast ValueError.  Both runs abort instead of
returning a disparity map, refuting totality for every positive
window_size. -/
theorem c3_even_window_counterexample :
    sad { H := 2, W := 2, dtype := DType.uint8, data := fun _ _ => 1 }
        { H := 2, W := 2, dtype := DType.uint8, data := fun _ _ => 1 } 2 5 = none ∧
      sad { H := 2, W := 2, dtype := DType.uint8, data := fun _ _ => 1 }
        { H := 2, W := 2, dtype := DType.uint8, data := fun _ _ => 1 } 1 5 = none :=
  ⟨rfl, rfl⟩

/-- C3 (amended): for every image pair and max_disparity, and every odd
window_size ≥ 3, the engine sad terminates normally with no out-of-bounds
access and returns a disparity map. -/
theorem c3_sad_total_odd (L R : Image2D) (window_size max_disparity : Nat)
    (hodd : window_size % 2 = 1) (h3 : 3 ≤ window_size) :
    (sad L R window_size max_disparity).isSome = true := by
  rw [sad_odd_eq L R window_size max_disparity hodd h3]
  rfl

/-- C3 witness: sad returns a disparity map on a concrete 4 x 5 pair with
window_size 3 and max_disparity 7. -/
theorem c3_sad_total_odd_witness :
    3 % 2 = 1 ∧ 3 ≤ 3 ∧
      (sad { H := 4, W := 5, dtype := DType.float32, data := fun y x => (y + x : Int) }
          { H := 4, W := 5, dtype := DType.float32, data := fun y x => (y * x : Int) }
          3 7).isSome = true :=
  ⟨by decide, by decide, c3_sad_total_odd _ _ 3 7 (by decide) (by decide)⟩

/-- C5: whenever the engine returns on an identical image pair (sad applied
to the same image twice), every cell of the returned disparity map is 0:
the zero-displacement window matches exactly, its SAD 0 beats the sentinel,
and no candidate can be strictly smaller; cells outside the iterated range
keep their zero initialization. -/
theorem c5_identical_images_zero (L : Image2D) (window_size max_disparity : Nat)
    (h : (sad L L window_size max_disparity).isSome = true) :
    ∀ y x, ((sad L L window_size max_disparity).map fun D => D.data y x) = some 0 := by
  intro y x
  rcases hs : sad L L window_size max_disparity with _ | D
  · rw [hs] at h
    cases h
  · simp only [Option.map]
    rw [sad_self_zero L window_size max_disparity D hs y x]

/-- C5 witness: on a concrete constant 2 x 2 image matched against itself
with window_size 3 and max_disparity 5, every output cell is 0. -/
theorem c5_identical_images_zero_witness :
    ((sad { H := 2, W := 2, dtype := DType.uint8, data := fun _ _ => 7 }
        { H := 2, W := 2, dtype := DType.uint8, data := fun _ _ => 7 } 3 5).isSome =
      true) ∧
      ∀ y x,
        ((sad { H := 2, W := 2, dtype := DType.uint8, data := fun _ _ => 7 }
            { H := 2, W := 2, dtype := DType.uint8, data := fun _ _ => 7 } 3 5).map
          fun D => D.data y x) = some 0 :=
  ⟨rfl, c5_identical_images_zero
    { H := 2, W := 2, dtype := DType.uint8, data := fun _ _ => 7 } 3 5 rfl⟩

/-- C6: with max_disparity > 0, every value the scanline matcher returns
(hence every value the engine writes into the disparity map) is a natural
number strictly below max_disparity: the recorded disparity starts at 0 and
is only ever replaced by a loop index d drawn from range(max_disparity). -/
theorem c6_disparity_in_range (left_patch : Nat → Nat → Int) (image_right : Image2D)
    (x y max_disparity window_size : Nat) (hmd : 0 < max_disparity) :
    match_on_scanline left_patch image_right x y max_disparity window_size <
      max_disparity :=
  match_on_scanline_lt left_patch image_right x y max_disparity window_size hmd

/-- C6 witness: a concrete matcher call with max_disparity 3 returns a
disparity below 3. -/
theorem c6_disparity_in_range_witness :
    0 < 3 ∧
      match_on_scanline (fun _ _ => 4)
        { H := 1, W := 3, dtype := DType.float32, data := fun _ j => (j : Int) }
        2 0 3 1 < 3 :=
  ⟨by decide,
    c6_disparity_in_range (fun _ _ => 4)
      { H := 1, W := 3, dtype := DType.float32, data := fun _ j => (j : Int) }
      2 0 3 1 (by decide)⟩

/-- C7: whenever sad returns, the disparity map has exactly the original
(unpadded) H x W extent of the input images: D = np.zeros_like(image_left)
is allocated before padding, so its shape is the original one regardless of
window_size. -/
theorem c7_output_shape (L R : Image2D) (window_size max_disparity : Nat)
    (h : (sad L R window_size max_disparity).isSome = true) :
    (sad L R window_size max_disparity).map (fun D => (D.H, D.W)) =
      some (L.H, L.W) :=
  sad_shape L R window_size max_disparity h

/-- C7 witness: on a concrete 2 x 3 pair with window_size 5, the returned
disparity map still has extent 2 x 3. -/
theorem c7_output_shape_witness :
    ((sad { H := 2, W := 3, dtype := DType.uint8, data := fun _ _ => 1 }
        { H := 2, W := 3, dtype := DType.uint8, data := fun _ _ => 2 } 5 4).isSome =
      true) ∧
      ((sad { H := 2, W := 3, dtype := DType.uint8, data := fun _ _ => 1 }
          { H := 2, W := 3, dtype := DType.uint8, data := fun _ _ => 2 } 5 4).map
        fun D => (D.H, D.W)) = some (2, 3) :=
  ⟨rfl, c7_output_shape { H := 2, W := 3, dtype := DType.uint8, data := fun _ _ => 1 }
    { H := 2, W := 3, dtype := DType.uint8, data := fun _ _ => 2 } 5 4 rfl⟩

/-- C8 counterexample: at the concrete call below (window_size 1, x = 2,
max_disparity 3, constant 0 left patch, right row 10, 10, 20) the candidates
d = 1 and d = 2 tie on the minimal SAD 10 and the smallest of them is 1,
but every SAD exceeds the sentinel 4, so the matcher returns the seed 0:
the returned disparity is not the smallest candidate achieving the minimal
SAD, refuting the claim as stated. -/
theorem c8_tie_sentinel_counterexample :
    match_on_scanline (fun _ _ => 0)
        { H := 1, W := 3, dtype := DType.float32,
          data := fun _ j => if j = 2 then 20 else 10 } 2 0 3 1 = 0 ∧
      sadScore (fun _ _ => 0)
        { H := 1, W := 3, dtype := DType.float32,
          data := fun _ j => if j = 2 then 20 else 10 } (2 - 1) 0 1 =
        sadScore (fun _ _ => 0)
          { H := 1, W := 3, dtype := DType.float32,
            data := fun _ j => if j = 2 then 20 else 10 } (2 - 2) 0 1 ∧
      sadScore (fun _ _ => 0)
        { H := 1, W := 3, dtype := DType.float32,
          data := fun _ j => if j = 2 then 20 else 10 } (2 - 1) 0 1 <
        sadScore (fun _ _ => 0)
          { H := 1, W := 3, dtype := DType.float32,
            data := fun _ j => if j = 2 then 20 else 10 } (2 - 0) 0 1 := by
  decide

/-- C8 (amended): when two candidates k < k2 tie on the minimal SAD and that
minimal SAD also beats the sentinel (is at most max_disparity), the matcher
returns the smallest minimizing candidate k: a later candidate with a SAD
equal to the recorded minimum never replaces it under the strict
less-than comparison. -/
theorem c8_first_tie_wins (left_patch : Nat → Nat → Int) (image_right : Image2D)
    (x y max_disparity window_size k k2 : Nat)
    (hkx : k ≤ x) (hkmd : k < max_disparity)
    (hk2x : k2 ≤ x) (hk2md : k2 < max_disparity) (hkk2 : k < k2)
    (htie : sadScore left_patch image_right (x - k2) y window_size =
      sadScore left_patch image_right (x - k) y window_size)
    (hsent : sadScore left_patch image_right (x - k) y window_size ≤ max_disparity)
    (hmin : ∀ d, d < max_disparity → d ≤ x →
      sadScore left_patch image_right (x - k) y window_size ≤
        sadScore left_patch image_right (x - d) y window_size)
    (hstrict : ∀ d, d < k →
      sadScore left_patch image_right (x - k) y window_size <
        sadScore left_patch image_right (x - d) y window_size) :
    match_on_scanline left_patch image_right x y max_disparity window_size = k :=
  match_on_scanline_argmin left_patch image_right x y max_disparity window_size k
    hkx hkmd hsent hmin hstrict

/-- C8 witness: a concrete call (window_size 1, x = 2, max_disparity 3,
constant 5 left patch, right row 5, 5, 9) where d = 1 and d = 2 tie at SAD 0
below the sentinel, and the matcher returns the smaller one, 1. -/
theorem c8_first_tie_wins_witness :
    (1 ≤ 2 ∧ 1 < 3 ∧ 2 ≤ 2 ∧ 2 < 3 ∧ 1 < 2 ∧
      sadScore (fun _ _ => 5)
          { H := 1, W := 3, dtype := DType.float32,
            data := fun _ j => if j = 2 then 9 else 5 } (2 - 2) 0 1 =
        sadScore (fun _ _ => 5)
          { H := 1, W := 3, dtype := DType.float32,
            data := fun _ j => if j = 2 then 9 else 5 } (2 - 1) 0 1 ∧
      sadScore (fun _ _ => 5)
        { H := 1, W := 3, dtype := DType.float32,
          data := fun _ j => if j = 2 then 9 else 5 } (2 - 1) 0 1 ≤ 3 ∧
      (∀ d, d < 3 → d ≤ 2 →
        sadScore (fun _ _ => 5)
          { H := 1, W := 3, dtype := DType.float32,
            data := fun _ j => if j = 2 then 9 else 5 } (2 - 1) 0 1 ≤
          sadScore (fun _ _ => 5)
            { H := 1, W := 3, dtype := DType.float32,
              data := fun _ j => if j = 2 then 9 else 5 } (2 - d) 0 1) ∧
      (∀ d, d < 1 →
        sadScore (fun _ _ => 5)
          { H := 1, W := 3, dtype := DType.float32,
            data := fun _ j => if j = 2 then 9 else 5 } (2 - 1) 0 1 <
          sadScore (fun _ _ => 5)
            { H := 1, W := 3, dtype := DType.float32,
              data := fun _ j => if j = 2 then 9 else 5 } (2 - d) 0 1)) ∧
    match_on_scanline (fun _ _ => 5)
      { H := 1, W := 3, dtype := DType.float32,
        data := fun _ j => if j = 2 then 9 else 5 } 2 0 3 1 = 1 :=
  ⟨⟨by decide, by decide, by decide, by decide, by decide, by decide, by decide,
    by decide, by decide⟩,
    c8_first_tie_wins _ _ 2 0 3 1 1 2 (by decide) (by decide) (by decide) (by decide)
      (by decide) (by decide) (by decide) (by decide) (by decide)⟩

/-- C2 counterexample: with padding = 0 (claimed admissible) on a 2 x 2
image of ones, the assignment padded[0:-0, 0:-0] = I addresses the empty
slice padded[0:0, 0:0] and numpy raises a broadcast ValueError: add_padding
returns no buffer at all, refuting the claim for padding = 0. -/
theorem c2_padding_zero_counterexample :
    add_padding
      (.twoD { H := 2, W := 2, dtype := DType.uint8, data := fun _ _ => 1 }) 0 =
      none := rfl

/-- C2 (amended): for every 2-D or 3-D image and every padding ≥ 1,
add_padding returns a buffer of shape (H+2p) x (W+2p) (x C) whose center
region, offset by p in each spatial dimension, equals the original image
element-for-element, and whose remaining border cells are all zero. -/
theorem c2_add_padding_correct (p : Nat) (I : Image2D) (J : Image3D) (hp : 1 ≤ p) :
    (∃ P : Image2D,
      add_padding (.twoD I) p = some (.twoD P) ∧
      P.H = I.H + 2 * p ∧ P.W = I.W + 2 * p ∧
      (∀ i, i < I.H → ∀ j, j < I.W → P.data (p + i) (p + j) = I.data i j) ∧
      (∀ i, i < P.H → ∀ j, j < P.W →
        (i < p ∨ I.H + p ≤ i ∨ j < p ∨ I.W + p ≤ j) → P.data i j = 0)) ∧
    (∃ Q : Image3D,
      add_padding (.threeD J) p = some (.threeD Q) ∧
      Q.H = J.H + 2 * p ∧ Q.W = J.W + 2 * p ∧ Q.C = J.C ∧
      (∀ i, i < J.H → ∀ j, j < J.W → ∀ c, c < J.C →
        Q.data (p + i) (p + j) c = J.data i j c) ∧
      (∀ i, i < Q.H → ∀ j, j < Q.W → ∀ c, c < Q.C →
        (i < p ∨ J.H + p ≤ i ∨ j < p ∨ J.W + p ≤ j) → Q.data i j c = 0)) := by
  have hp0 : p ≠ 0 := by omega
  constructor
  · refine ⟨paddedGrid2 I p, ?_, rfl, rfl, ?_, ?_⟩
    · simp [add_padding, add_padding_2d, hp0]
    · intro i hi j hj
      simp only [paddedGrid2]
      rw [if_pos (by omega), Nat.add_sub_cancel_left, Nat.add_sub_cancel_left]
    · intro i hi j hj hb
      simp only [paddedGrid2] at hi hj ⊢
      rw [if_neg (by omega)]
  · refine ⟨paddedGrid3 J p, ?_, rfl, rfl, rfl, ?_, ?_⟩
    · simp [add_padding, add_padding_3d, hp0]
    · intro i hi j hj c hc
      simp only [paddedGrid3]
      rw [if_pos (by omega), Nat.add_sub_cancel_left, Nat.add_sub_cancel_left]
    · intro i hi j hj c hc hb
      simp only [paddedGrid3] at hi hj ⊢
      rw [if_neg (by omega)]

/-- C2 witness: padding 1 applied to a concrete 1 x 1 grayscale image and a
concrete 1 x 1 x 1 color image satisfies the full padding contract. -/
theorem c2_add_padding_correct_witness :
    1 ≤ 1 ∧
      ((∃ P : Image2D,
        add_padding
            (.twoD { H := 1, W := 1, dtype := DType.uint8, data := fun _ _ => 5 }) 1 =
          some (.twoD P) ∧
        P.H = 1 + 2 * 1 ∧ P.W = 1 + 2 * 1 ∧
        (∀ i, i < 1 → ∀ j, j < 1 → P.data (1 + i) (1 + j) = 5) ∧
        (∀ i, i < P.H → ∀ j, j < P.W →
          (i < 1 ∨ 1 + 1 ≤ i ∨ j < 1 ∨ 1 + 1 ≤ j) → P.data i j = 0)) ∧
      (∃ Q : Image3D,
        add_padding
            (.threeD
              { H := 1, W := 1, C := 1, dtype := DType.uint8,
                data := fun _ _ _ => 8 }) 1 =
          some (.threeD Q) ∧
        Q.H = 1 + 2 * 1 ∧ Q.W = 1 + 2 * 1 ∧ Q.C = 1 ∧
        (∀ i, i < 1 → ∀ j, j < 1 → ∀ c, c < 1 → Q.data (1 + i) (1 + j) c = 8) ∧
        (∀ i, i < Q.H → ∀ j, j < Q.W → ∀ c, c < Q.C →
          (i < 1 ∨ 1 + 1 ≤ i ∨ j < 1 ∨ 1 + 1 ≤ j) → Q.data i j c = 0))) :=
  ⟨by decide,
    c2_add_padding_correct 1 { H := 1, W := 1, dtype := DType.uint8, data := fun _ _ => 5 }
      { H := 1, W := 1, C := 1, dtype := DType.uint8, data := fun _ _ _ => 8 }
      (by decide)⟩

/-- C9 counterexample: a 2-D uint8 image padded by 1 comes back with dtype
float32 (the 2-D branch builds np.zeros with dtype=np.float32 regardless of
the source dtype), so the padded image does not keep the element type of
the source, refuting the claim for 2-D inputs. -/
theorem c9_dtype_counterexample :
    ((add_padding
        (.twoD { H := 1, W := 1, dtype := DType.uint8, data := fun _ _ => 5 }) 1).map
      NpImage.dtypeOf) = some DType.float32 ∧ DType.float32 ≠ DType.uint8 := by
  decide

/-- C9 (amended): for padding ≥ 1, a 3-D input keeps its element dtype and
its trailing channel dimension unchanged, while a 2-D input always comes
back with dtype float32 (and no channel dimension). -/
theorem c9_dtype_channels (I : Image2D) (J : Image3D) (p : Nat) (hp : 1 ≤ p) :
    ((add_padding (.threeD J) p).map NpImage.dtypeOf = some J.dtype ∧
      (add_padding (.threeD J) p).map NpImage.channels = some (some J.C)) ∧
    ((add_padding (.twoD I) p).map NpImage.dtypeOf = some DType.float32 ∧
      (add_padding (.twoD I) p).map NpImage.channels = some none) := by
  have hp0 : p ≠ 0 := by omega
  constructor
  · constructor <;>
      simp [add_padding, add_padding_3d, hp0, paddedGrid3, NpImage.dtypeOf,
        NpImage.channels]
  · constructor <;>
      simp [add_padding, add_padding_2d, hp0, paddedGrid2, NpImage.dtypeOf,
        NpImage.channels]

/-- C9 witness: padding 1 on a concrete 1 x 1 x 2 int32 image keeps dtype
int32 and channel count 2, and on a concrete 1 x 1 uint8 image yields
float32. -/
theorem c9_dtype_channels_witness :
    1 ≤ 1 ∧
      (((add_padding
          (.threeD
            { H := 1, W := 1, C := 2, dtype := DType.int32,
              data := fun _ _ _ => 3 }) 1).map NpImage.dtypeOf = some DType.int32 ∧
        (add_padding
          (.threeD
            { H := 1, W := 1, C := 2, dtype := DType.int32,
              data := fun _ _ _ => 3 }) 1).map NpImage.channels = some (some 2)) ∧
      ((add_padding
          (.twoD { H := 1, W := 1, dtype := DType.uint8, data := fun _ _ => 5 }) 1).map
        NpImage.dtypeOf = some DType.float32 ∧
        (add_padding
          (.twoD { H := 1, W := 1, dtype := DType.uint8, data := fun _ _ => 5 }) 1).map
          NpImage.channels = some none)) :=
  ⟨by decide,
    c9_dtype_channels { H := 1, W := 1, dtype := DType.uint8, data := fun _ _ => 5 }
      { H := 1, W := 1, C := 2, dtype := DType.int32, data := fun _ _ _ => 3 } 1
      (by decide)⟩

theorem iterBound_odd (n window_size : Nat) (hodd : window_size % 2 = 1) :
    iterBound (n + 2 * (window_size / 2)) window_size = n := by
  unfold iterBound
  omega

theorem add_padding_2d_dims (I PL : Image2D) (p : Nat)
    (h : add_padding_2d I p = some PL) :
    PL.H = I.H + 2 * p ∧ PL.W = I.W + 2 * p := by
  unfold add_padding_2d at h
  split at h
  · split at h
    · cases h
      rename_i hp0 _
      constructor <;> simp [hp0]
    · cases h
  · cases h
    exact ⟨rfl, rfl⟩

theorem sadLoops_data (L PL PR : Image2D) (window_size max_disparity y x : Nat)
    (hyB : iterBound PL.H window_size = L.H)
    (hxB : iterBound PL.W window_size = L.W)
    (hy : y < L.H) (hx : x < L.W) :
    ((sadLoops L PL PR window_size max_disparity).map fun D => D.data y x) =
      some (match_on_scanline (fun i j => PL.data (y + i) (x + j)) PR x y
        max_disparity window_size) := by
  simp only [sadLoops, hyB, hxB]
  rw [if_neg (by omega)]
  simp only [Option.map_some']
  rw [if_pos ⟨hy, hx⟩]

/-- C10: for every odd window_size and every input pair on which sad
returns, the iteration bounds height - window_size + 1 and width -
window_size + 1 over the padded extents equal exactly the original H and W,
and every cell of the output map inside [0, H) x [0, W) is written with the
value of the scanline matcher at that cell. -/
theorem c10_full_coverage (L R : Image2D) (window_size max_disparity : Nat)
    (hodd : window_size % 2 = 1)
    (hsome : (sad L R window_size max_disparity).isSome = true) :
    iterBound (L.H + 2 * (window_size / 2)) window_size = L.H ∧
    iterBound (L.W + 2 * (window_size / 2)) window_size = L.W ∧
    ∀ y, y < L.H → ∀ x, x < L.W →
      ∃ PL PR : Image2D,
        add_padding_2d L (window_size / 2) = some PL ∧
        add_padding_2d R (window_size / 2) = some PR ∧
        ((sad L R window_size max_disparity).map fun D => D.data y x) =
          some (match_on_scanline
            (fun i j => (astypeFloat32 PL).data (y + i) (x + j))
            (astypeFloat32 PR) x y max_disparity window_size) := by
  refine ⟨iterBound_odd L.H window_size hodd, iterBound_odd L.W window_size hodd, ?_⟩
  intro y hy x hx
  rcases hL : add_padding_2d L (window_size / 2) with _ | PL0
  · rw [sad] at hsome
    rw [hL] at hsome
    cases hsome
  · rcases hR : add_padding_2d R (window_size / 2) with _ | PR0
    · rw [sad] at hsome
      rw [hL, Option.some_bind, hR] at hsome
      cases hsome
    · refine ⟨PL0, PR0, rfl, rfl, ?_⟩
      rw [sad, hL, Option.some_bind, hR, Option.some_bind]
      have hdims := add_padding_2d_dims L PL0 (window_size / 2) hL
      refine sadLoops_data L (astypeFloat32 PL0) (astypeFloat32 PR0) window_size
        max_disparity y x ?_ ?_ hy hx
      · rw [show (astypeFloat32 PL0).H = PL0.H from rfl, hdims.1]
        exact iterBound_odd L.H window_size hodd
      · rw [show (astypeFloat32 PL0).W = PL0.W from rfl, hdims.2]
        exact iterBound_odd L.W window_size hodd

/-- C10 witness: on a concrete 2 x 2 pair with window_size 3 the bounds
equal 2 and 2 and every interior cell is written by the matcher. -/
theorem c10_full_coverage_witness :
    3 % 2 = 1 ∧
      ((sad { H := 2, W := 2, dtype := DType.uint8, data := fun y x => (2 * y + x : Int) }
        { H := 2, W := 2, dtype := DType.uint8, data := fun y x => (y + 2 * x : Int) }
        3 4).isSome = true) ∧
      (iterBound (2 + 2 * (3 / 2)) 3 = 2 ∧
       iterBound (2 + 2 * (3 / 2)) 3 = 2 ∧
       ∀ y, y < 2 → ∀ x, x < 2 →
        ∃ PL PR : Image2D,
          add_padding_2d
            { H := 2, W := 2, dtype := DType.uint8, data := fun y x => (2 * y + x : Int) }
            (3 / 2) = some PL ∧
          add_padding_2d
            { H := 2, W := 2, dtype := DType.uint8, data := fun y x => (y + 2 * x : Int) }
            (3 / 2) = some PR ∧
          ((sad
            { H := 2, W := 2, dtype := DType.uint8, data := fun y x => (2 * y + x : Int) }
            { H := 2, W := 2, dtype := DType.uint8, data := fun y x => (y + 2 * x : Int) }
            3 4).map fun D => D.data y x) =
            some (match_on_scanline
              (fun i j => (astypeFloat32 PL).data (y + i) (x + j))
              (astypeFloat32 PR) x y 4 3)) :=
  ⟨by decide, rfl,
    c10_full_coverage
      { H := 2, W := 2, dtype := DType.uint8, data := fun y x => (2 * y + x : Int) }
      { H := 2, W := 2, dtype := DType.uint8, data := fun y x => (y + 2 * x : Int) }
      3 4 (by decide) rfl⟩

/-- C4 counterexample: constant 7 x 7 images satisfy the premise of the
claim: the right image is the left image shifted right by k = 1 column (a
constant image satisfies the shift relation in both readings, R[y][x] =
L[y][x - 1] and R[y][x] = L[y][x + 1], so both orientations are stated
below), k = 1 < max_disparity = 3, and the output pixel (3, 3) lies exactly
window_size = 3 rows and columns away from every image border, so with
padding 1 its 3 x 3 window (padded rows and columns 3..5) and the k-shifted
candidate window (padded columns 2..4) both lie entirely inside the copied
interior region (padded rows and columns 1..7) and never touch the zero
padding.  Yet the computed disparity there is 0, not 1: the
zero-displacement window already matches exactly with SAD 0, and the tie at
d = 1 does not replace it under the strict less-than comparison, refuting
the claim quantified over every shifted pair. -/
theorem c4_constant_shift_counterexample :
    (∀ yy, yy < 7 → ∀ xx, xx < 7 → 1 ≤ xx →
      Image2D.data { H := 7, W := 7, dtype := DType.uint8, data := fun _ _ => 7 } yy xx =
        Image2D.data { H := 7, W := 7, dtype := DType.uint8, data := fun _ _ => 7 } yy
          (xx - 1)) ∧
      (∀ yy, yy < 7 → ∀ xx, xx < 7 - 1 →
        Image2D.data { H := 7, W := 7, dtype := DType.uint8, data := fun _ _ => 7 } yy
            xx =
          Image2D.data { H := 7, W := 7, dtype := DType.uint8, data := fun _ _ => 7 } yy
            (xx + 1)) ∧
      ((sad { H := 7, W := 7, dtype := DType.uint8, data := fun _ _ => 7 }
        { H := 7, W := 7, dtype := DType.uint8, data := fun _ _ => 7 } 3 3).map
          fun D => D.data 3 3) = some 0 ∧ (0 : Nat) ≠ 1 := by
  decide

/-- C4 (amended): if the right image shows the left-image content displaced
by k columns in the disparity-recoverable sense (R[yy][xx] = L[yy][xx + k]),
the left image has strictly increasing rows (a non-repeating texture such
as a constant gradient, so that no candidate nearer than k can tie the
exact match), k < max_disparity, and the window around the padded pixel
(x, y) lies at least window_size and k away from all boundary effects, then
the engine computes exactly disparity k at that pixel. -/
theorem c4_shift_recovers_disparity (L R : Image2D)
    (window_size max_disparity k y x : Nat)
    (hodd : window_size % 2 = 1) (h3 : 3 ≤ window_size)
    (hH : R.H = L.H) (hW : R.W = L.W)
    (hshift : ∀ yy, yy < L.H → ∀ xx, xx < L.W - k →
      R.data yy xx = L.data yy (xx + k))
    (hmono : ∀ yy, yy < L.H → ∀ b, b < L.W → ∀ a, a < b →
      L.data yy a < L.data yy b)
    (hkmd : k < max_disparity)
    (hy1 : window_size / 2 ≤ y) (hy2 : y + window_size ≤ window_size / 2 + L.H)
    (hx1 : window_size / 2 + k ≤ x)
    (hx2 : x + window_size + k ≤ window_size / 2 + L.W) :
    ((sad L R window_size max_disparity).map fun D => D.data y x) = some k := by
  rw [sad_odd_eq L R window_size max_disparity hodd h3]
  simp only [Option.map_some']
  have hyH : y < L.H := by omega
  have hxW : x < L.W := by omega
  rw [if_pos ⟨hyH, hxW⟩]
  have hSk : sadScore
      (fun i j => (paddedGrid2 L (window_size / 2)).data (y + i) (x + j))
      (paddedGrid2 R (window_size / 2)) (x - k) y window_size = 0 := by
    apply sadScore_eq_zero
    intro i hi j hj
    simp only [paddedGrid2]
    rw [if_pos (by omega), if_pos (by omega)]
    rw [hshift (y + i - window_size / 2) (by omega)
      (x - k + j - window_size / 2) (by omega)]
    congr 1
    omega
  have hm : match_on_scanline
      (fun i j => (paddedGrid2 L (window_size / 2)).data (y + i) (x + j))
      (paddedGrid2 R (window_size / 2)) x y max_disparity window_size = k := by
    apply match_on_scanline_argmin _ _ x y max_disparity window_size k
      (by omega) hkmd
    · rw [hSk]
      exact Int.ofNat_nonneg max_disparity
    · intro d _ _
      rw [hSk]
      exact sadScore_nonneg _ _ _ _ _
    · intro d hdk
      rw [hSk]
      apply sadScore_pos _ _ _ _ _ (by omega)
      show (paddedGrid2 L (window_size / 2)).data (y + 0) (x + 0) ≠
        (paddedGrid2 R (window_size / 2)).data (y + 0) (x - d + 0)
    
      simp only [paddedGrid2, Nat.add_zero]
      rw [if_pos (by omega), if_pos (by omega)]
      rw [hshift (y - window_size / 2) (by omega)
        (x - d - window_size / 2) (by omega)]
      have hidx : x - d - window_size / 2 + k = x - window_size / 2 + (k - d) := by
        omega
      rw [hidx]
      exact ne_of_lt (hmono (y - window_size / 2) (by omega)
        (x - window_size / 2 + (k - d)) (by omega) (x - window_size / 2) (by omega))
  rw [hm]

/-- C4 witness: a concrete 3 x 5 strict-gradient pair shifted by k = 1, with
window_size 3 and max_disparity 2, recovers disparity 1 at the interior
padded pixel (2, 1). -/
theorem c4_shift_recovers_disparity_witness :
    3 % 2 = 1 ∧ 3 ≤ 3 ∧ (3 : Nat) = 3 ∧ (5 : Nat) = 5 ∧
      (∀ yy, yy < 3 → ∀ xx, xx < 5 - 1 →
        Image2D.data
            { H := 3, W := 5, dtype := DType.float32,
              data := fun _ xx => (xx : Int) + 1 } yy xx =
          Image2D.data
            { H := 3, W := 5, dtype := DType.float32,
              data := fun _ xx => (xx : Int) } yy (xx + 1)) ∧
      (∀ yy, yy < 3 → ∀ b, b < 5 → ∀ a, a < b →
        Image2D.data
            { H := 3, W := 5, dtype := DType.float32,
              data := fun _ xx => (xx : Int) } yy a <
          Image2D.data
            { H := 3, W := 5, dtype := DType.float32,
              data := fun _ xx => (xx : Int) } yy b) ∧
      1 < 2 ∧ 3 / 2 ≤ 1 ∧ 1 + 3 ≤ 3 / 2 + 3 ∧ 3 / 2 + 1 ≤ 2 ∧
      2 + 3 + 1 ≤ 3 / 2 + 5 ∧
      ((sad { H := 3, W := 5, dtype := DType.float32, data := fun _ xx => (xx : Int) }
        { H := 3, W := 5, dtype := DType.float32, data := fun _ xx => (xx : Int) + 1 }
        3 2).map fun D => D.data 1 2) = some 1 :=
  ⟨by decide, by decide, by decide, by decide, by decide, by decide, by decide,
    by decide, by decide, by decide, by decide,
    c4_shift_recovers_disparity
      { H := 3, W := 5, dtype := DType.float32, data := fun _ xx => (xx : Int) }
      { H := 3, W := 5, dtype := DType.float32, data := fun _ xx => (xx : Int) + 1 }
      3 2 1 1 2 (by decide) (by decide) (by decide) (by decide) (by decide)
      (by decide) (by decide) (by decide) (by decide) (by decide) (by decide)⟩
